import Mathlib

/-!
Shallow embedding of the Eurostat ETL repository:

* the normalization pipeline of `src/etl_eurostat.py`
  (`fetch_and_clean_data`, `load_to_postgres`): column classification,
  melt, numeric coercion, identifier-name normalization, geography
  resolution, completeness filter, per-dataset error isolation;
* the query-time band aggregation of the poverty query in
  `src/app_dashboard.py` (lines 120-135);
* the database-engine construction of `src/db_config.py`
  (`get_db_config` / `get_db_engine`).

Python strings are modelled as Lean `String` restricted to the ASCII
data the source handles; pandas numeric values as `ℚ`; pandas `NaN` as
an explicit missing marker.
-/

namespace ETL

/-- A table cell: a raw string token, a number (pandas numeric), or the
missing marker (pandas `NaN`). -/
inductive Cell where
  | str : String → Cell
  | num : ℚ → Cell
  | missing : Cell
deriving DecidableEq

/-- A raw wide-format table, as returned by the fetch collaborator
(`eurostat.get_data_df`): ordered column names, and rows of cells
aligned with the columns.  Column labels are modelled as strings;
integer year labels print as all-digit strings, which the
classification test below treats exactly as `isinstance(col, int)`
columns are treated in the source. -/
structure RawTable where
  cols : List String
  rows : List (List Cell)
deriving DecidableEq

/-- Column-classification test of `etl_eurostat.py` line 52: a column
is melted as a year column iff `str(col).isdigit()` holds, i.e. its
name is nonempty and consists solely of decimal digits.  No suffix
stripping happens at this stage in the source. -/
def isYearName (c : String) : Bool :=
  !c.toList.isEmpty && c.toList.all Char.isDigit

/-- The `id_vars` list of `etl_eurostat.py` line 52: columns whose name
does not pass the digit test, in original order. -/
def id_vars (t : RawTable) : List String :=
  t.cols.filter (fun c => !isYearName c)

/-- The value columns handed to `df.melt`, i.e. the columns that are
not `id_vars`, in original order. -/
def yearCols (t : RawTable) : List String :=
  t.cols.filter (fun c => isYearName c)

/-- A melted row: the identifier columns as an ordered association list
of (column name, cell), plus the `year` and `value` fields produced by
`df.melt(id_vars=..., var_name='year', value_name='value')`. -/
structure MRow where
  ids : List (String × Cell)
  year : Cell
  value : Cell
deriving DecidableEq

/-- Cell lookup by column name in an association list (first match;
column names are distinct in the tables produced by the source). -/
def lookupCell (assoc : List (String × Cell)) (c : String) : Cell :=
  match assoc.find? (fun p => p.1 = c) with
  | some p => p.2
  | none => Cell.missing

/-- One melted output row: one input row paired with one year column
`y`; identifiers are carried verbatim, `year` is the column name and
`value` is the cell of the row at that column. -/
def meltRow (cols : List String) (y : String) (r : List Cell) : MRow :=
  { ids := (cols.zip r).filter (fun p => !isYearName p.1),
    year := Cell.str y,
    value := lookupCell (cols.zip r) y }

/-- The melt of `etl_eurostat.py` line 55: for each year column (in
column order) and each input row (in row order) emit one long row, in
pandas block order (all rows of the first value column first). -/
def melt (t : RawTable) : List MRow :=
  (yearCols t).flatMap (fun y => t.rows.map (fun r => meltRow t.cols y r))

/-- Numeric value of an ASCII digit character. -/
def digitVal (ch : Char) : ℕ := ch.toNat - 48

/-- Decimal reading of a digit list; `none` unless the list is nonempty
and all digits. -/
def parseDigits (l : List Char) : Option ℕ :=
  if !l.isEmpty && l.all Char.isDigit then
    some (l.foldl (fun a ch => 10 * a + digitVal ch) 0)
  else none

/-- Splits a character list at the first dot, if any. -/
def splitDot : List Char → List Char × Option (List Char)
  | [] => ([], none)
  | c :: t =>
    if c = '.' then ([], some t)
    else
      let r := splitDot t
      (c :: r.1, r.2)

/-- Unsigned decimal literal, read as an exact numerator/denominator
pair: an integer part, optionally followed by a dot and a fractional
part, denotes `(i * 10 ^ k + f) / 10 ^ k`. -/
def parseParts (l : List Char) : Option (ℕ × ℕ) :=
  match splitDot l with
  | (ip, none) => (parseDigits ip).map (fun n => (n, 1))
  | (ip, some fp) =>
    match parseDigits ip, parseDigits fp with
    | some i, some f => some (i * 10 ^ fp.length + f, 10 ^ fp.length)
    | _, _ => none

/-- Signed decimal literal over a character list: optional sign, then
an unsigned decimal literal. -/
def parseSigned : List Char → Option ℚ
  | [] => none
  | c :: t =>
    if c = '-' then (parseParts t).map (fun p => mkRat (-(p.1 : ℤ)) p.2)
    else if c = '+' then (parseParts t).map (fun p => mkRat p.1 p.2)
    else (parseParts (c :: t)).map (fun p => mkRat p.1 p.2)

/-- Numeric parsing used to model `pd.to_numeric(..., errors='coerce')`
on the standard integer and decimal literal forms carried by the
source: optional sign, digits, optional fractional part.  Any other
token fails to parse. -/
def parseNum (s : String) : Option ℚ :=
  parseSigned s.toList

/-- Type coercion of `etl_eurostat.py` lines 58-59: an already numeric
cell stays itself, missing stays missing, and a string cell becomes its
parsed number or the missing marker (`errors='coerce'`). -/
def toNumCell : Cell → Cell
  | Cell.str s =>
    match parseNum s with
    | some q => Cell.num q
    | none => Cell.missing
  | Cell.num q => Cell.num q
  | Cell.missing => Cell.missing

/-- Coerces the `year` and `value` fields of a melted row (lines
58-59); identifier cells are untouched. -/
def coerceRow (r : MRow) : MRow :=
  { r with year := toNumCell r.year, value := toNumCell r.value }

/-- Removes every (left-to-right, non-overlapping) occurrence of the
five characters of the `\time` marker, modelling Python
`.replace('\\time', '')` on the already lower-cased name. -/
def replEach : List Char → List Char
  | '\\' :: 't' :: 'i' :: 'm' :: 'e' :: rest => replEach rest
  | c :: rest => c :: replEach rest
  | [] => []

/-- Identifier-name normalization of `etl_eurostat.py` line 62:
lower-case the name and strip the backslash-time marker.  `Char.toLower`
matches Python `str.lower` on the ASCII headers the source handles. -/
def normalizeName (c : String) : String :=
  String.mk (replEach (c.toList.map Char.toLower))

/-- Applies the name normalization to every identifier column of a
melted row (the `year` and `value` names are already lower-case and
marker-free in the source, so only the id columns can change). -/
def normalizeRow (r : MRow) : MRow :=
  { r with ids := r.ids.map (fun p => (normalizeName p.1, p.2)) }

/-- Substring test on character lists (`pat` occurs inside the first
argument), modelling Python `in` on strings. -/
def isPrefixB : List Char → List Char → Bool
  | [], _ => true
  | _ :: _, [] => false
  | a :: as, b :: bs => a == b && isPrefixB as bs

/-- Does `pat` occur as a contiguous run inside `l`? -/
def hasSub : List Char → List Char → Bool
  | [], pat => pat.isEmpty
  | a :: t, pat => isPrefixB pat (a :: t) || hasSub t pat

/-- String-level substring containment, modelling Python `'geo' in c`. -/
def containsSub (s pat : String) : Bool := hasSub s.toList pat.toList

/-- The normalized identifier column names of the melted table, in
order (the melted table's columns are these followed by `year` and
`value`, neither of which contains `geo` nor needs normalizing). -/
def normIdNames (t : RawTable) : List String :=
  (id_vars t).map normalizeName

/-- Geography resolution of `etl_eurostat.py` lines 65-69: if a column
is already named `geo`, nothing is renamed; otherwise the first column
whose name contains `geo` is selected for renaming; otherwise there is
no geography column. -/
def resolveGeo (names : List String) : Option String :=
  if "geo" ∈ names then some "geo"
  else names.find? (fun c => containsSub c "geo")

/-- Renames identifier `old` to `new` in one melted row (pandas
`rename(columns={old: new})` applied row-wise). -/
def renameId (old new : String) (r : MRow) : MRow :=
  { r with ids := r.ids.map (fun p => if p.1 = old then (new, p.2) else p) }

/-- Field access on a melted row by identifier name. -/
def getField (r : MRow) (c : String) : Cell := lookupCell r.ids c

/-- Is a cell the missing marker (`NaN`)? -/
def isMissing : Cell → Bool
  | Cell.missing => true
  | _ => false

/-- The predicate of `dropna(subset=['year', 'value', 'geo'])`
(`etl_eurostat.py` line 72): a row is kept iff none of those three
fields is missing; other identifier fields are not consulted. -/
def completeRow (r : MRow) : Bool :=
  !isMissing r.year && !isMissing r.value && !isMissing (getField r "geo")

/-- The melted, coerced, name-normalized, geo-renamed rows of one
dataset, i.e. the table as it stands just before the completeness
filter (after `etl_eurostat.py` line 69). -/
def preSinkRows (t : RawTable) : List MRow :=
  let staged := (melt t).map (fun r => normalizeRow (coerceRow r))
  match resolveGeo (normIdNames t) with
  | some g => staged.map (renameId g "geo")
  | none => staged

/-- One dataset's run of the cleaning pipeline, `etl_eurostat.py` lines
44-72.  When no column can be resolved to `geo`, the
`dropna(subset=[..., 'geo'])` call raises a `KeyError`, which the
per-dataset handler turns into a logged failure; that path is the
`Except.error` branch.  The dataset-specific filter block at lines
75-84 is a no-op (`pass`) and adds nothing. -/
def processTable (t : RawTable) : Except String (List MRow) :=
  match resolveGeo (normIdNames t) with
  | none => Except.error "KeyError: geo"
  | some _ => Except.ok ((preSinkRows t).filter completeRow)

/-- One dataset's fetch-then-clean step: the fetch collaborator either
yields a raw table or fails, and a fetched table is cleaned by
`processTable`; either failure lands in the same per-dataset `except`
handler. -/
def runDataset (fetched : Except String RawTable) : Except String (List MRow) :=
  match fetched with
  | Except.ok t => processTable t
  | Except.error e => Except.error e

/-- The dataset loop of `fetch_and_clean_data` (lines 40-90): each
dataset is processed inside its own try/except, a failed dataset is
logged and skipped, and every successful dataset contributes its
cleaned table to the returned dictionary, in order.  (The extra
`country_codes` table appended at lines 93-99 does not interact with
the pipeline claims and is left out of the model.) -/
def fetch_and_clean_data (datasets : List (String × Except String RawTable)) :
    List (String × List MRow) :=
  datasets.filterMap (fun p =>
    match runDataset p.2 with
    | Except.ok rows => some (p.1, rows)
    | Except.error _ => none)

/-- Did an `Except` computation succeed? -/
def isOkB : Except String Unit → Bool
  | Except.ok _ => true
  | Except.error _ => false

/-- The load loop of `load_to_postgres` (lines 107-113): every table is
written inside its own try/except, so each table records its own
success or failure and a failed write never stops the loop. -/
def load_to_postgres (sink : String → List MRow → Except String Unit)
    (data : List (String × List MRow)) : List (String × Bool) :=
  data.map (fun p => (p.1, isOkB (sink p.1 p.2)))

/-- Equality of per-dataset pipeline results is decidable, which lets
concrete runs of the pipeline be checked by evaluation. -/
instance : DecidableEq (Except String (List MRow)) := fun a b =>
  match a, b with
  | Except.ok x, Except.ok y => decidable_of_iff (x = y) (by simp)
  | Except.error x, Except.error y => decidable_of_iff (x = y) (by simp)
  | Except.ok _, Except.error _ => isFalse (by simp)
  | Except.error _, Except.ok _ => isFalse (by simp)

/-- The scenario table of claim C1. -/
def scenarioTable : RawTable :=
  { cols := ["geo\\time", "age", "sex", "unit", "2021", "2022"],
    rows := [[Cell.str "IT", Cell.str "Y15-29", Cell.str "T",
              Cell.str "PC_ACT", Cell.str "10.5", Cell.str "11.0"]] }

/-- C1: on the RawTable with columns `geo\time, age, sex, unit, 2021,
2022` and the single row `IT, Y15-29, T, PC_ACT, 10.5, 11.0`, the full
normalization pipeline produces exactly the two records
(geo=IT, age=Y15-29, sex=T, unit=PC_ACT, year=2021, value=10.5) and
(geo=IT, age=Y15-29, sex=T, unit=PC_ACT, year=2022, value=11.0), and
no others. -/
theorem pipeline_scenario_exact :
    processTable scenarioTable = Except.ok
      [ { ids := [("geo", Cell.str "IT"), ("age", Cell.str "Y15-29"),
                  ("sex", Cell.str "T"), ("unit", Cell.str "PC_ACT")],
          year := Cell.num 2021, value := Cell.num (mkRat 21 2) },
        { ids := [("geo", Cell.str "IT"), ("age", Cell.str "Y15-29"),
                  ("sex", Cell.str "T"), ("unit", Cell.str "PC_ACT")],
          year := Cell.num 2022, value := Cell.num 11 } ] := by
  decide

/-- Helper: every melted row arises from exactly the pairing of one
year column with one input row. -/
theorem melt_mem {t : RawTable} {r : MRow} (h : r ∈ melt t) :
    ∃ y ∈ yearCols t, ∃ row ∈ t.rows, r = meltRow t.cols y row := by
  simp only [melt, List.mem_flatMap, List.mem_map] at h
  obtain ⟨y, hy, row, hrow, rfl⟩ := h
  exact ⟨y, hy, row, hrow, rfl⟩

/-- Helper: the melt emits one row per (input row, year column) pair. -/
theorem melt_length (t : RawTable) :
    (melt t).length = t.rows.length * (yearCols t).length := by
  unfold melt
  generalize yearCols t = ys
  induction ys with
  | nil => simp
  | cons y ys ih =>
    simp only [List.flatMap_cons, List.length_append, List.length_map, ih,
      List.length_cons, Nat.mul_succ]
    omega

/-- C2: for every RawTable with at least one year column and at least
one identifier column, the melt output has exactly input-row-count
times year-column-count rows, and every output row is one input row
paired with one year column (its name as `year`, its cell at that
column as `value`) with identifiers carried verbatim: nothing is
duplicated, lost or filtered at this stage. -/
theorem melter_multiplies_rows (t : RawTable)
    (_hy : 0 < (yearCols t).length) (_hid : 0 < (id_vars t).length) :
    (melt t).length = t.rows.length * (yearCols t).length ∧
    ∀ r ∈ melt t, ∃ y ∈ yearCols t, ∃ row ∈ t.rows, r = meltRow t.cols y row :=
  ⟨melt_length t, fun _ hr => melt_mem hr⟩

/-- Witness table for C2: one identifier column, two year columns. -/
def meltWitnessT : RawTable :=
  { cols := ["geo", "2020", "2021"],
    rows := [[Cell.str "IT", Cell.str "1", Cell.str "2"]] }

/-- Witness for C2 at a concrete table. -/
theorem melter_multiplies_rows_witness :
    (melt meltWitnessT).length =
      meltWitnessT.rows.length * (yearCols meltWitnessT).length :=
  (melter_multiplies_rows meltWitnessT (by decide) (by decide)).1

/-- Helper: a successful pipeline run returns exactly the staged rows
that pass the completeness filter. -/
theorem processTable_ok_eq (t : RawTable) (recs : List MRow)
    (h : processTable t = Except.ok recs) :
    recs = (preSinkRows t).filter completeRow := by
  unfold processTable at h
  cases hg : resolveGeo (normIdNames t) with
  | none => rw [hg] at h; cases h
  | some g => rw [hg] at h; injection h with h; exact h.symm

/-- Helper: a successful pipeline run implies the geography column was
resolved. -/
theorem processTable_ok_geo (t : RawTable) (recs : List MRow)
    (h : processTable t = Except.ok recs) :
    ∃ g, resolveGeo (normIdNames t) = some g := by
  unfold processTable at h
  cases hg : resolveGeo (normIdNames t) with
  | none => rw [hg] at h; cases h
  | some g => exact ⟨g, rfl⟩

/-- C3: every record surviving the completeness filter has non-missing
`geo`, `year` and `value`, and every staged record whose three critical
fields are non-missing is retained, whatever its other identifier
fields hold (the filter consults only those three fields). -/
theorem completeness_filter_spec (t : RawTable) (recs : List MRow)
    (h : processTable t = Except.ok recs) :
    (∀ r ∈ recs, isMissing r.year = false ∧ isMissing r.value = false ∧
        isMissing (getField r "geo") = false) ∧
    (∀ r ∈ preSinkRows t, completeRow r = true → r ∈ recs) := by
  have hrecs : recs = (preSinkRows t).filter completeRow :=
    processTable_ok_eq t recs h
  subst hrecs
  refine ⟨?_, ?_⟩
  · intro r hr
    have hc := List.of_mem_filter hr
    unfold completeRow at hc
    simp only [Bool.and_eq_true, Bool.not_eq_true'] at hc
    exact ⟨hc.1.1, hc.1.2, hc.2⟩
  · intro r hr hcr
    exact List.mem_filter.2 ⟨hr, hcr⟩

/-- Witness table for C3: the `sex` cell is missing but `geo`, `year`
and `value` are present, so the record is retained. -/
def compWitnessT : RawTable :=
  { cols := ["geo", "sex", "2020"],
    rows := [[Cell.str "IT", Cell.missing, Cell.str "1.5"]] }

/-- The single record the pipeline produces from `compWitnessT`. -/
def compWitnessRec : MRow :=
  { ids := [("geo", Cell.str "IT"), ("sex", Cell.missing)],
    year := Cell.num 2020, value := Cell.num (mkRat 3 2) }

/-- Witness for C3 at a concrete table and record. -/
theorem completeness_filter_spec_witness :
    isMissing compWitnessRec.year = false ∧
      isMissing compWitnessRec.value = false ∧
      isMissing (getField compWitnessRec "geo") = false :=
  (completeness_filter_spec compWitnessT [compWitnessRec] (by decide)).1
    compWitnessRec (by simp)

/-- C8: the numeric coercion is idempotent (re-coercing any already
coerced cell changes nothing), and coercing the missing marker yields
the missing marker. -/
theorem coercion_idempotent :
    (∀ v : Cell, toNumCell (toNumCell v) = toNumCell v) ∧
    toNumCell Cell.missing = Cell.missing := by
  refine ⟨?_, rfl⟩
  intro v
  cases v with
  | str s => cases hp : parseNum s <;> simp [toNumCell, hp]
  | num q => rfl
  | missing => rfl

/-- Specification-side classifier of claim C4, following the claim's
words: a year column is a name that is composed entirely of decimal
digits after removing the delimiter-based suffix pattern (the
backslash-time marker) used by the source. -/
def specYearColumn (c : String) : Bool :=
  let stripped := replEach c.toList
  !stripped.isEmpty && stripped.all Char.isDigit

/-- C4 counterexample: the source classifier applies no suffix
stripping, so the column name `2021\time` is classified as an
identifier column although the claim's test (strip the marker, then
check all-digits) classifies it as a year column. -/
theorem column_classifier_counterexample :
    isYearName "2021\\time" = false ∧ specYearColumn "2021\\time" = true ∧
    id_vars { cols := ["2021\\time"], rows := [] } = ["2021\\time"] := by
  decide

/-- C4 amended: a column is classified as a year column iff its name,
exactly as written (no suffix removal at this stage), is nonempty and
composed entirely of decimal digits; every other column is an
identifier column; both classes keep the original column order
(sublists of the column list). -/
theorem column_classifier_amended (t : RawTable) (c : String)
    (hc : c ∈ t.cols) :
    (c ∈ yearCols t ↔ (c.toList ≠ [] ∧ ∀ ch ∈ c.toList, ch.isDigit = true)) ∧
    (c ∈ id_vars t ↔ ¬(c.toList ≠ [] ∧ ∀ ch ∈ c.toList, ch.isDigit = true)) ∧
    List.Sublist (id_vars t) t.cols ∧ List.Sublist (yearCols t) t.cols := by
  have hiff : isYearName c = true ↔
      (c.toList ≠ [] ∧ ∀ ch ∈ c.toList, ch.isDigit = true) := by
    simp [isYearName, List.isEmpty_iff, List.all_eq_true]
  refine ⟨?_, ?_, List.filter_sublist _, List.filter_sublist _⟩
  · rw [← hiff]
    simp [yearCols, List.mem_filter, hc]
  · rw [← hiff]
    simp [id_vars, List.mem_filter, hc]

/-- Witness table for C4's amended statement. -/
def classWitnessT : RawTable := { cols := ["geo", "2020"], rows := [] }

/-- Witness for C4's amended statement at a concrete column. -/
theorem column_classifier_amended_witness :
    "2020" ∈ yearCols classWitnessT ↔
      ("2020".toList ≠ [] ∧ ∀ ch ∈ "2020".toList, ch.isDigit = true) :=
  (column_classifier_amended classWitnessT "2020" (by decide)).1

/-- A record as consumed by the band aggregation query of
`app_dashboard.py` lines 120-135: the category code (the `age` value),
the remaining grouping identifiers (`geo`, `year`, `sex`, `unit`)
abstracted into one key, and the numeric value. -/
structure BandRec where
  key : String
  code : String
  value : ℚ
deriving DecidableEq

/-- The SQL `CASE WHEN age IN (dom mapping) THEN target ELSE age END`
of the poverty query: a mapped code is replaced by its target, an
unmapped code is kept unchanged. -/
def applyBand (mapping : List (String × String)) (c : String) : String :=
  match mapping.find? (fun p => p.1 = c) with
  | some p => p.2
  | none => c

/-- First-occurrence deduplication of grouping keys (SQL `GROUP BY`
leaves group order unspecified; the model fixes the order of first
appearance). -/
def dedupKeys : List (String × String) → List (String × String)
  | [] => []
  | k :: t => k :: (dedupKeys t).filter (fun x => x != k)

/-- The band aggregation of `app_dashboard.py` lines 120-135: keep the
records whose code is in the retained `IN` set, rewrite codes through
the `CASE` mapping (unmapped codes stay as themselves), then group by
(other identifiers, new code) and take `AVG(value)` — the arithmetic
mean over contributing rows, weighted per row. -/
def bandAggregate (retained : List String) (mapping : List (String × String))
    (recs : List BandRec) : List BandRec :=
  let kept := recs.filter (fun r => retained.contains r.code)
  let mapped := kept.map (fun r => { r with code := applyBand mapping r.code })
  let keys := dedupKeys (mapped.map (fun r => (r.key, r.code)))
  keys.map (fun k =>
    let grp := mapped.filter (fun r => r.key == k.1 && r.code == k.2)
    { key := k.1, code := k.2,
      value := (grp.map BandRec.value).sum / (grp.length : ℚ) })

/-- The three records of claim C5: codes A, B, C with values 10, 20,
30, sharing all other identifier fields. -/
def c5Records : List BandRec :=
  [ { key := "k", code := "A", value := 10 },
    { key := "k", code := "B", value := 20 },
    { key := "k", code := "C", value := 30 } ]

/-- C5 counterexample: with retained set `{A, B, C}` and mapping
`{A mapsto X, B mapsto X}`, the aggregation outputs two rows, one of
which carries the retained-but-unmapped code C — the claim's "exactly
one row" and "no row with code C" are both false on the code, whose
`CASE ... ELSE age END` keeps unmapped retained codes as their own
group. -/
theorem band_aggregator_counterexample :
    (bandAggregate ["A", "B", "C"] [("A", "X"), ("B", "X")] c5Records).length
        = 2 ∧
    ∃ r ∈ bandAggregate ["A", "B", "C"] [("A", "X"), ("B", "X")] c5Records,
      r.code = "C" := by
  constructor
  · simp [bandAggregate, applyBand, dedupKeys, c5Records]
  · refine ⟨{ key := "k", code := "C", value := 30 }, ?_, rfl⟩
    simp [bandAggregate, applyBand, dedupKeys, c5Records]

/-- C5 amended: the aggregation outputs exactly two rows — code X with
value 15 (the per-row mean of A's 10 and B's 20) and code C with its
own value 30 (retained codes outside the mapping domain keep their own
code as a group); codes outside the retained set would be dropped. -/
theorem band_aggregator_amended :
    bandAggregate ["A", "B", "C"] [("A", "X"), ("B", "X")] c5Records =
      [ { key := "k", code := "X", value := 15 },
        { key := "k", code := "C", value := 30 } ] := by
  simp [bandAggregate, applyBand, dedupKeys, c5Records]
  norm_num

/-- C6: when no identifier column can be canonicalized to `geo`, the
dataset's pipeline run fails with a surfaced error (the `dropna`
`KeyError`, caught and logged by the per-dataset handler), the dataset
contributes no table to the data handed to the sink, and every other
dataset's outcome is untouched. -/
theorem geo_resolution_failure (t : RawTable)
    (h : resolveGeo (normIdNames t) = none) :
    (∃ msg, processTable t = Except.error msg) ∧
    ∀ pre post name,
      fetch_and_clean_data (pre ++ (name, Except.ok t) :: post) =
        fetch_and_clean_data pre ++ fetch_and_clean_data post := by
  constructor
  · exact ⟨"KeyError: geo", by simp [processTable, h]⟩
  · intro pre post name
    unfold fetch_and_clean_data
    rw [List.filterMap_append]
    congr 1
    rw [List.filterMap_cons]
    simp [runDataset, processTable, h]

/-- Witness table for C6: no column name contains `geo`. -/
def geoFailT : RawTable :=
  { cols := ["age", "2020"], rows := [[Cell.str "Y15-29", Cell.str "1"]] }

/-- Healthy sibling table for the C6 witness. -/
def geoOkT : RawTable :=
  { cols := ["geo", "2020"], rows := [[Cell.str "IT", Cell.str "1"]] }

/-- Witness for C6 at concrete datasets. -/
theorem geo_resolution_failure_witness :
    fetch_and_clean_data
        [("ok", Except.ok geoOkT), ("bad", Except.ok geoFailT)] =
      fetch_and_clean_data [("ok", Except.ok geoOkT)] ++
        fetch_and_clean_data [] :=
  (geo_resolution_failure geoFailT (by decide)).2
    [("ok", Except.ok geoOkT)] [] "bad"

/-- Helper: a nonempty all-digit character list has no dot, so
`splitDot` returns it whole. -/
theorem splitDot_no_dot (l : List Char) (h : ∀ ch ∈ l, ch.isDigit = true) :
    splitDot l = (l, none) := by
  induction l with
  | nil => rfl
  | cons c t ih =>
    have hc : c.isDigit = true := h c (by simp)
    have hcd : ¬(c = '.') := by
      intro e
      subst e
      exact absurd hc (by decide)
    have ht : splitDot t = (t, none) := ih (fun ch hch => h ch (by simp [hch]))
    simp [splitDot, hcd, ht]

/-- Helper: a nonempty all-digit token parses as a natural number over
denominator one. -/
theorem parseParts_digits (l : List Char) (hne : l ≠ [])
    (hall : ∀ ch ∈ l, ch.isDigit = true) :
    ∃ n : ℕ, parseParts l = some (n, 1) := by
  refine ⟨l.foldl (fun a ch => 10 * a + digitVal ch) 0, ?_⟩
  have hsd := splitDot_no_dot l hall
  have hcond : (!l.isEmpty && l.all Char.isDigit) = true := by
    rw [Bool.and_eq_true]
    refine ⟨by simp [List.isEmpty_iff, hne], ?_⟩
    rw [List.all_eq_true]
    exact hall
  have hpd : parseDigits l = some (l.foldl (fun a ch => 10 * a + digitVal ch) 0) := by
    unfold parseDigits
    rw [if_pos hcond]
  simp [parseParts, hsd, hpd]

/-- Helper: a year-named column (nonempty, all decimal digits) always
coerces to a natural number. -/
theorem parseNum_digits (s : String) (h : isYearName s = true) :
    ∃ n : ℕ, parseNum s = some (n : ℚ) := by
  have h' : s.toList ≠ [] ∧ ∀ ch ∈ s.toList, ch.isDigit = true := by
    simpa [isYearName, List.isEmpty_iff, List.all_eq_true] using h
  obtain ⟨hne, hall⟩ := h'
  unfold parseNum
  cases hl : s.toList with
  | nil => exact absurd hl hne
  | cons c t =>
    rw [hl] at hall
    have hc : c.isDigit = true := hall c (by simp)
    have hcm : ¬(c = '-') := by
      intro e; subst e; exact absurd hc (by decide)
    have hcp : ¬(c = '+') := by
      intro e; subst e; exact absurd hc (by decide)
    obtain ⟨n, hn⟩ := parseParts_digits (c :: t) (by simp) hall
    refine ⟨n, ?_⟩
    simp only [parseSigned]
    rw [if_neg hcm, if_neg hcp, hn]
    simp [Rat.mkRat_one]

/-- Field-projection helpers: renaming and name normalization leave the
`year` field alone, and coercion applies `toNumCell` to it. -/
theorem renameId_year (a b : String) (r : MRow) :
    (renameId a b r).year = r.year := rfl

/-- Name normalization leaves the `year` field alone. -/
theorem normalizeRow_year (r : MRow) : (normalizeRow r).year = r.year := rfl

/-- Coercion applies `toNumCell` to the `year` field. -/
theorem coerceRow_year (r : MRow) : (coerceRow r).year = toNumCell r.year := rfl

/-- C7 counterexample table: the year column is named `99`. -/
def yr2Table : RawTable :=
  { cols := ["geo", "99"], rows := [[Cell.str "IT", Cell.str "5"]] }

/-- C7 counterexample: a RawTable whose year column is named `99`
yields an output record whose coerced year is 99 — fewer than four
digits and implausible as a calendar year — so the claimed 4-digit
invariant does not hold of the pipeline's output in general. -/
theorem year_four_digit_counterexample :
    processTable yr2Table = Except.ok
      [ { ids := [("geo", Cell.str "IT")],
          year := Cell.num 99, value := Cell.num 5 } ] ∧
    (99 : ℚ) < 1000 := by
  constructor
  · decide
  · norm_num

/-- C7 amended: every record of a successful pipeline run carries a
year that is a non-missing natural number (the numeric reading of its
all-digit year-column name); the pipeline never checks that this
number has four digits or is a plausible calendar year. -/
theorem normalized_year_numeric (t : RawTable) (recs : List MRow)
    (h : processTable t = Except.ok recs) :
    ∀ r ∈ recs, ∃ n : ℕ, r.year = Cell.num (n : ℚ) := by
  intro r hr
  rw [processTable_ok_eq t recs h] at hr
  have hfil := List.mem_of_mem_filter hr
  obtain ⟨g, hg⟩ := processTable_ok_geo t recs h
  unfold preSinkRows at hfil
  rw [hg] at hfil
  obtain ⟨r1, hr1, rfl⟩ := List.mem_map.1 hfil
  obtain ⟨m, hm, rfl⟩ := List.mem_map.1 hr1
  obtain ⟨y, hy, row, hrow, rfl⟩ := melt_mem hm
  have hyd : isYearName y = true := (List.mem_filter.1 hy).2
  obtain ⟨n, hn⟩ := parseNum_digits y hyd
  exact ⟨n, by simp [renameId_year, normalizeRow_year, coerceRow_year,
    meltRow, toNumCell, hn]⟩

/-- Witness table for C7's amended statement. -/
def yrWitnessT : RawTable :=
  { cols := ["geo", "2020"], rows := [[Cell.str "FR", Cell.str "2"]] }

/-- The single record the pipeline produces from `yrWitnessT`. -/
def yrWitnessRec : MRow :=
  { ids := [("geo", Cell.str "FR")], year := Cell.num 2020, value := Cell.num 2 }

/-- Witness for C7's amended statement at a concrete table and
record. -/
theorem normalized_year_numeric_witness :
    ∃ n : ℕ, yrWitnessRec.year = Cell.num (n : ℚ) :=
  normalized_year_numeric yrWitnessT [yrWitnessRec] (by decide)
    yrWitnessRec (by simp)

/-- C9: dataset processing and loading are isolated per dataset — a
dataset whose fetch or normalization fails is simply absent from the
result while every sibling dataset (before or after it) is processed
exactly as it would be on its own, and the load loop writes each table
independently of the success or failure of the others. -/
theorem per_dataset_isolation :
    (∀ (pre post : List (String × Except String RawTable)) (name : String)
        (d : Except String RawTable) (err : String),
        runDataset d = Except.error err →
        fetch_and_clean_data (pre ++ (name, d) :: post) =
          fetch_and_clean_data (pre ++ post)) ∧
    (∀ (pre post : List (String × Except String RawTable)) (name : String)
        (d : Except String RawTable) (rows : List MRow),
        runDataset d = Except.ok rows →
        fetch_and_clean_data (pre ++ (name, d) :: post) =
          fetch_and_clean_data pre ++
            (name, rows) :: fetch_and_clean_data post) ∧
    (∀ (sink : String → List MRow → Except String Unit)
        (pre post : List (String × List MRow)) (entry : String × List MRow),
        load_to_postgres sink (pre ++ entry :: post) =
          load_to_postgres sink pre ++
            (entry.1, isOkB (sink entry.1 entry.2)) ::
              load_to_postgres sink post) := by
  refine ⟨?_, ?_, ?_⟩
  · intro pre post name d err hd
    unfold fetch_and_clean_data
    rw [List.filterMap_append, List.filterMap_append, List.filterMap_cons]
    simp [hd]
  · intro pre post name d rows hd
    unfold fetch_and_clean_data
    rw [List.filterMap_append, List.filterMap_cons]
    simp [hd]
  · intro sink pre post entry
    unfold load_to_postgres
    rw [List.map_append, List.map_cons]

/-- Healthy table for the C9 witness. -/
def isoOkT : RawTable :=
  { cols := ["geo", "2020"], rows := [[Cell.str "DE", Cell.str "3"]] }

/-- Witness for C9: a failed fetch of the first dataset leaves the
second dataset's processing untouched. -/
theorem per_dataset_isolation_witness :
    fetch_and_clean_data
        [("bad", Except.error "FetchError"), ("ok", Except.ok isoOkT)] =
      fetch_and_clean_data [("ok", Except.ok isoOkT)] :=
  per_dataset_isolation.1 [] [("ok", Except.ok isoOkT)] "bad"
    (Except.error "FetchError") "FetchError" rfl

/-- Database configuration as assembled by `get_db_config`
(`db_config.py` lines 21-40): `user`, `password`, `host` and `dbname`
come from `os.getenv` and may be absent (`None`); `port` and `sslmode`
always have string values because `os.getenv` is called with defaults
(`'5432'`, `'require'`). -/
structure DBConfig where
  user : Option String
  password : Option String
  host : Option String
  port : String
  dbname : Option String
  sslmode : String
deriving DecidableEq

/-- Python string interpolation of a possibly absent value: an f-string
renders `None` as the four characters `None`. -/
def pyNone : Option String → String
  | some s => s
  | none => "None"

/-- The connection URL built by the f-string at `db_config.py` line 59
(string concatenation is associative, so the grouping is immaterial). -/
def buildUrl (c : DBConfig) : String :=
  "postgresql://" ++ (pyNone c.user ++ (":" ++ (pyNone c.password ++ ("@" ++
    (pyNone c.host ++ (":" ++ (c.port ++ ("/" ++ (pyNone c.dbname ++
    ("?sslmode=" ++ c.sslmode))))))))))

/-- Engine construction of `db_config.py` lines 42-66.  The
required-keys check at lines 49-53 has a `pass` body, so it rejects
nothing; `create_engine` (sqlalchemy, an external collaborator) only
parses the URL lazily and does not connect, so the try/except at lines
61-66 does not fire on missing values and the function returns an
engine, modelled by its URL. -/
def get_db_engine (c : DBConfig) : Except String String :=
  Except.ok (buildUrl c)

/-- Helper: a list is a prefix of itself followed by anything. -/
theorem isPrefixB_self_append (pat y : List Char) :
    isPrefixB pat (pat ++ y) = true := by
  induction pat with
  | nil => rfl
  | cons a as ih => simp [isPrefixB, ih]

/-- Helper: a pattern occurs in any list of the form
prefix-pattern-suffix. -/
theorem hasSub_here (x pat y : List Char) :
    hasSub (x ++ (pat ++ y)) pat = true := by
  induction x with
  | nil =>
    cases pat with
    | nil =>
      cases y with
      | nil => rfl
      | cons b bs => simp [hasSub, isPrefixB]
    | cons a as =>
      have hp : isPrefixB (a :: as) (a :: (as ++ y)) = true := by
        simpa using isPrefixB_self_append (a :: as) y
      simp [hasSub, hp]
  | cons a x ih => simp [hasSub, ih]

/-- Helper: substring occurrence is preserved by prepending. -/
theorem hasSub_append_left (x l pat : List Char) (h : hasSub l pat = true) :
    hasSub (x ++ l) pat = true := by
  induction x with
  | nil => exact h
  | cons a t ih => simp [hasSub, ih]

/-- Helper: `None` occurs in any string of the shape
prefix-`None`-suffix. -/
theorem containsSub_mid (x y : String) :
    containsSub (x ++ ("None" ++ y)) "None" = true := by
  unfold containsSub
  exact hasSub_here x.toList "None".toList y.toList

/-- Helper: substring occurrence in strings is preserved by
prepending. -/
theorem containsSub_append_left (x s pat : String)
    (h : containsSub s pat = true) :
    containsSub (x ++ s) pat = true := by
  unfold containsSub at h ⊢
  exact hasSub_append_left x.toList s.toList pat.toList h

/-- C10: engine construction never fails, whatever configuration values
are missing, and whenever `user`, `password`, `host` or `dbname` is
absent the constructed URL embeds the literal string `None` in its
place — malformed configuration is only detectable later, at first
use of the engine. -/
theorem engine_construction_lazy (c : DBConfig) :
    (∃ u, get_db_engine c = Except.ok u) ∧
    (c.user = none → containsSub (buildUrl c) "None" = true) ∧
    (c.password = none → containsSub (buildUrl c) "None" = true) ∧
    (c.host = none → containsSub (buildUrl c) "None" = true) ∧
    (c.dbname = none → containsSub (buildUrl c) "None" = true) := by
  refine ⟨⟨buildUrl c, rfl⟩, ?_, ?_, ?_, ?_⟩
  · intro h
    unfold buildUrl
    rw [h]
    exact containsSub_mid _ _
  · intro h
    unfold buildUrl
    rw [h]
    apply containsSub_append_left
    apply containsSub_append_left
    exact containsSub_mid _ _
  · intro h
    unfold buildUrl
    rw [h]
    apply containsSub_append_left
    apply containsSub_append_left
    apply containsSub_append_left
    apply containsSub_append_left
    exact containsSub_mid _ _
  · intro h
    unfold buildUrl
    rw [h]
    apply containsSub_append_left
    apply containsSub_append_left
    apply containsSub_append_left
    apply containsSub_append_left
    apply containsSub_append_left
    apply containsSub_append_left
    apply containsSub_append_left
    apply containsSub_append_left
    exact containsSub_mid _ _

/-- Witness for C10 at a fully absent configuration. -/
theorem engine_construction_lazy_witness :
    containsSub
      (buildUrl { user := none, password := none, host := none,
                  port := "5432", dbname := none, sslmode := "require" })
      "None" = true :=
  (engine_construction_lazy _).2.1 rfl

end ETL
